import Mathlib

/-!
Verification development for `src/imageIngest.py` (helxplatform/image-ingest).

The script provisions per-consent-group resources in a remote imaging
service: for every consent-group key in the parsed YAML it creates a
dataset, creates a DICOM store inside it, imports the group's files, and
sets the dataset IAM policy for the group's member list.

Shallow embedding: the remote service is modelled as an oracle mapping
each issued remote request to either success (`none`) or an error kind
(`some e`).  The Python code wraps none of its remote calls in
`try`/`except`, so an error raised by any `request.execute()` propagates
out of `main` and aborts the process; the embedding therefore returns the
list of requests issued so far together with an optional uncaught error.
-/

/-- Error kinds a remote call can signal (spec §7 subkinds). -/
inductive RemoteError where
  | alreadyExists
  | permissionDenied
  | unavailable
  | invalidArgument
deriving DecidableEq

/-- A remote request issued by the script, with the arguments the source
passes: `create_dataset` (line 238), `create_dicom_store` (line 244),
`import_dicom_instance` (line 249), `set_dataset_iam_policy`
(lines 265-268). -/
inductive RemoteCall where
  | createDataset (project region datasetId : String)
  | createDicomStore (project region datasetId dicomStoreId : String)
  | importDicomInstance (project region datasetId dicomStoreId contentUri : String)
  | setIamPolicy (project region datasetId : String) (member : List String) (role : String)
deriving DecidableEq

/-- The remote service, as seen by one run: for each issued request,
either success (`none`) or the error it raises (`some e`). -/
def Oracle : Type := RemoteCall → Option RemoteError

/-- A remote service that accepts every request. -/
def okOracle : Oracle := fun _ => none

/-- Line 237: `thisDataSetName = "dataset--" + studyId + "--" + key`. -/
def thisDataSetName (studyId key : String) : String :=
  "dataset--" ++ studyId ++ "--" ++ key

/-- Line 240: `thisDataStoreName = studyId + "--" + key`. -/
def thisDataStoreName (studyId key : String) : String :=
  studyId ++ "--" ++ key

/-- Line 248: `uri = thisDataStoreName + "/**.dcm"`. -/
def uri (studyId key : String) : String :=
  thisDataStoreName studyId key ++ "/**.dcm"

/-- Lines 253-258: `userList` is built by appending `"user:" + thisEmail`
for each email of `allowedEmails`, in list order. -/
def buildUserList : List String → List String
  | [] => []
  | thisEmail :: rest => ("user:" ++ thisEmail) :: buildUserList rest

/-- The `study` mapping of the parsed YAML (lines 219-226): its `id` and
its `consent-groups` list.  Each consent-group entry is a YAML mapping
from group-name keys to member-email lists; Python dicts iterate in
insertion order, so a mapping is embedded as an association list. -/
structure Study where
  id : String
  consentGroups : List (List (String × List String))
deriving DecidableEq

/-- The parsed YAML document as `main` reads it (lines 216-226). -/
structure ParsedYaml where
  study : Study
  project : String
  region : String
deriving DecidableEq

/-- The body of the inner loop of `main` (lines 233-268) for one
consent-group key: create the dataset, create the DICOM store, import,
build the user list and set the IAM policy.  Each remote request is
issued in source order; an error from the oracle aborts immediately
(there is no `try`/`except` in `main`), so the result is the list of
requests issued (the failing one included) and the uncaught error, if
any. -/
def processGroupKey (oracle : Oracle) (project region studyId key : String)
    (allowedEmails : List String) : List RemoteCall × Option RemoteError :=
  let c1 := RemoteCall.createDataset project region (thisDataSetName studyId key)
  match oracle c1 with
  | some e => ([c1], some e)
  | none =>
    let c2 := RemoteCall.createDicomStore project region (thisDataSetName studyId key)
      (thisDataStoreName studyId key)
    match oracle c2 with
    | some e => ([c1, c2], some e)
    | none =>
      let c3 := RemoteCall.importDicomInstance project region (thisDataSetName studyId key)
        (thisDataStoreName studyId key) (uri studyId key)
      match oracle c3 with
      | some e => ([c1, c2, c3], some e)
      | none =>
        let c4 := RemoteCall.setIamPolicy project region (thisDataSetName studyId key)
          (buildUserList allowedEmails) "roles/viewer"
        match oracle c4 with
        | some e => ([c1, c2, c3, c4], some e)
        | none => ([c1, c2, c3, c4], none)

/-- The inner loop of `main` (line 233: `for key in thisConsentGroup`),
over the keys of one consent-group mapping; an uncaught error stops the
whole iteration. -/
def processGroupKeys (oracle : Oracle) (project region studyId : String) :
    List (String × List String) → List RemoteCall × Option RemoteError
  | [] => ([], none)
  | (key, allowedEmails) :: rest =>
    match processGroupKey oracle project region studyId key allowedEmails with
    | (tr, some e) => (tr, some e)
    | (tr, none) =>
      match processGroupKeys oracle project region studyId rest with
      | (tr2, res) => (tr ++ tr2, res)

/-- The outer loop of `main` (line 231: `for i in range(len(consentGroups))`),
over the consent-group entries; an uncaught error stops the whole
iteration. -/
def processConsentGroups (oracle : Oracle) (project region studyId : String) :
    List (List (String × List String)) → List RemoteCall × Option RemoteError
  | [] => ([], none)
  | thisConsentGroup :: rest =>
    match processGroupKeys oracle project region studyId thisConsentGroup with
    | (tr, some e) => (tr, some e)
    | (tr, none) =>
      match processConsentGroups oracle project region studyId rest with
      | (tr2, res) => (tr ++ tr2, res)

/-- `main` (lines 216-268), after the out-of-scope argv/file handling,
taking the parsed YAML document as input: iterates the consent-group
entries and their keys, performing the provisioning sequence for each
key.  Returns the requests issued and the uncaught error, if any. -/
def mainRun (oracle : Oracle) (parsedYaml : ParsedYaml) : List RemoteCall × Option RemoteError :=
  processConsentGroups oracle parsedYaml.project parsedYaml.region
    parsedYaml.study.id parsedYaml.study.consentGroups

/-- One binding of the IAM policy body built at lines 81-90. -/
structure Binding where
  role : String
  members : List String
deriving DecidableEq

/-- The IAM policy document: a list of bindings plus an optional etag
(lines 81-93). -/
structure Policy where
  bindings : List Binding
  etag : Option String
deriving DecidableEq

/-- Lines 81-93: the policy body `set_dataset_iam_policy` constructs and
submits — exactly one binding holding the given role and the given
member list, built without reading the dataset's existing policy (the
source issues no getIamPolicy request). -/
def set_dataset_iam_policy_request (member : List String) (role : String)
    (etag : Option String) : Policy :=
  { bindings := [{ role := role, members := member }], etag := etag }

/-- The remote `setIamPolicy` operation invoked at lines 95-97: per its
contract (the source docstring at line 65 — it "Sets the IAM policy for
the specified dataset"), it sets the resource's access-control policy to
the submitted policy, replacing any existing policy. -/
def setIamPolicyApply (_oldPolicy submitted : Policy) : Policy := submitted

/-- `set_dataset_iam_policy` (lines 58-101): effect on the dataset's IAM
policy — the constructed single-binding body is submitted to the remote
`setIamPolicy` operation. -/
def set_dataset_iam_policy (oldPolicy : Policy) (member : List String)
    (role : String) (etag : Option String) : Policy :=
  setIamPolicyApply oldPolicy (set_dataset_iam_policy_request member role etag)

/-- The four requests `processGroupKey` issues when the remote accepts
them all, in source order. -/
def groupKeyCalls (project region studyId key : String)
    (allowedEmails : List String) : List RemoteCall :=
  [RemoteCall.createDataset project region (thisDataSetName studyId key),
   RemoteCall.createDicomStore project region (thisDataSetName studyId key)
     (thisDataStoreName studyId key),
   RemoteCall.importDicomInstance project region (thisDataSetName studyId key)
     (thisDataStoreName studyId key) (uri studyId key),
   RemoteCall.setIamPolicy project region (thisDataSetName studyId key)
     (buildUserList allowedEmails) "roles/viewer"]

/-- Is a request a `createDataset` request? -/
def isCreateDataset : RemoteCall → Bool
  | RemoteCall.createDataset _ _ _ => true
  | _ => false

/-- Is a request a `setIamPolicy` (access-grant) request? -/
def isGrantCall : RemoteCall → Bool
  | RemoteCall.setIamPolicy _ _ _ _ _ => true
  | _ => false

/-- The datasetId of a `createDataset` request. -/
def datasetIdOf : RemoteCall → Option String
  | RemoteCall.createDataset _ _ d => some d
  | _ => none

/-- The dicomStoreId of a `createDicomStore` request. -/
def storeIdOf : RemoteCall → Option String
  | RemoteCall.createDicomStore _ _ _ s => some s
  | _ => none

/-- The end-to-end example study of spec §8. -/
def exampleStudy : Study :=
  { id := "study7",
    consentGroups := [[("groupA", ["a@x.com"])], [("groupB", ([] : List String))]] }

/-- The end-to-end example document of spec §8. -/
def exampleParsed : ParsedYaml :=
  { study := exampleStudy, project := "proj1", region := "us-central1" }

/-- A remote service that signals `AlreadyExists` on every request
(every targeted resource was created by a previous run). -/
def alreadyExistsOracle : Oracle := fun _ => some RemoteError.alreadyExists

/-- A remote service that rejects the creation of the example study's
first dataset with `PermissionDenied` and accepts everything else. -/
def permissionDeniedOracle : Oracle := fun c =>
  match c with
  | RemoteCall.createDataset _ _ "dataset--study7--groupA" => some RemoteError.permissionDenied
  | _ => none

/-- A parsed document whose Study holds two consent groups with the same
name, in two separate consent-group entries. -/
def dupParsed : ParsedYaml :=
  { study := { id := "study7",
               consentGroups := [[("groupA", ["a@x.com"])], [("groupA", ["b@x.com"])]] },
    project := "proj1", region := "us-central1" }

/-- A parsed document whose studyId and group name contain characters
outside lowercase alphanumerics and hyphens. -/
def badParsed : ParsedYaml :=
  { study := { id := "Study_7!", consentGroups := [[("Group A", ["a@x.com"])]] },
    project := "proj1", region := "us-central1" }

/-- Helper: under an all-accepting remote, one key's loop body issues
exactly its four requests and raises no error. -/
theorem processGroupKey_ok (p r s k : String) (es : List String) :
    processGroupKey okOracle p r s k es = (groupKeyCalls p r s k es, none) := rfl

/-- Helper: under an all-accepting remote, the inner loop issues the
four-request block of every key of the mapping, in order. -/
theorem processGroupKeys_ok (p r s : String) (kvs : List (String × List String)) :
    processGroupKeys okOracle p r s kvs =
      ((kvs.map fun kv => groupKeyCalls p r s kv.1 kv.2).flatten, none) := by
  induction kvs with
  | nil => rfl
  | cons kv rest ih =>
    cases kv with
    | mk k es => simp [processGroupKeys, processGroupKey_ok, ih]

/-- Helper: under an all-accepting remote, the outer loop issues every
entry's blocks in order. -/
theorem processConsentGroups_ok (p r s : String)
    (entries : List (List (String × List String))) :
    processConsentGroups okOracle p r s entries =
      ((entries.map fun thisConsentGroup =>
        (thisConsentGroup.map fun kv => groupKeyCalls p r s kv.1 kv.2).flatten).flatten,
       none) := by
  induction entries with
  | nil => rfl
  | cons entry rest ih => simp [processConsentGroups, processGroupKeys_ok, ih]

/-- Helper: under an all-accepting remote, the whole run issues the
per-entry, per-key request blocks in declaration order and raises no
error. -/
theorem mainRun_ok (py : ParsedYaml) :
    mainRun okOracle py =
      ((py.study.consentGroups.map fun thisConsentGroup =>
        (thisConsentGroup.map fun kv =>
          groupKeyCalls py.project py.region py.study.id kv.1 kv.2).flatten).flatten,
       none) := by
  simp [mainRun, processConsentGroups_ok]

/-- Helper: each four-request block holds exactly one dataset-creation
request, so the inner loop creates one dataset per key. -/
theorem countCreate_groupKeys (p r s : String) (kvs : List (String × List String)) :
    (((kvs.map fun kv => groupKeyCalls p r s kv.1 kv.2).flatten).filter
      isCreateDataset).length = kvs.length := by
  induction kvs with
  | nil => rfl
  | cons kv rest ih =>
    have h1 : (List.filter isCreateDataset (groupKeyCalls p r s kv.1 kv.2)).length = 1 := rfl
    simp only [List.map_cons, List.flatten_cons, List.filter_append, List.length_append,
      ih, h1, List.length_cons]
    omega

/-- Helper: across the whole run, the number of dataset-creation
requests is the total number of keys over all entries. -/
theorem countCreate_entries (p r s : String)
    (entries : List (List (String × List String))) :
    ((((entries.map fun thisConsentGroup =>
        (thisConsentGroup.map fun kv => groupKeyCalls p r s kv.1 kv.2).flatten).flatten).filter
      isCreateDataset).length) = (entries.map List.length).sum := by
  induction entries with
  | nil => rfl
  | cons entry rest ih =>
    simp only [List.map_cons, List.flatten_cons, List.filter_append, List.length_append,
      countCreate_groupKeys, ih, List.sum_cons]

/-- Helper: left cancellation of string concatenation. -/
theorem string_append_left_cancel (a b c : String) (h : a ++ b = a ++ c) : b = c := by
  have hd : (a ++ b).data = (a ++ c).data := congrArg String.data h
  rw [String.data_append, String.data_append] at hd
  exact String.ext (List.append_cancel_left hd)

/-- Claim C6 (confirmed): for every (studyId, groupName) pair the derived
names are exactly datasetId = "dataset--" ++ studyId ++ "--" ++ groupName,
storeId = studyId ++ "--" ++ groupName and importSource =
storeId ++ "/**.dcm"; on the spec example study "study7" with groups
"groupA" and "groupB", the run creates exactly the expected datasetIds
and storeIds, in order. -/
theorem C6_naming_convention :
    (∀ s k, thisDataSetName s k = "dataset--" ++ s ++ "--" ++ k ∧
      thisDataStoreName s k = s ++ "--" ++ k ∧
      uri s k = thisDataStoreName s k ++ "/**.dcm") ∧
    (mainRun okOracle exampleParsed).1.filterMap datasetIdOf =
      ["dataset--study7--groupA", "dataset--study7--groupB"] ∧
    (mainRun okOracle exampleParsed).1.filterMap storeIdOf =
      ["study7--groupA", "study7--groupB"] :=
  ⟨fun _ _ => ⟨rfl, rfl, rfl⟩, rfl, rfl⟩

/-- Claim C9 (confirmed): each bare email of the member list is prefixed
with "user:" before being passed to the access-grant request, the list
order and length are preserved (the passed list is exactly the map of
the prefixing function over the member list), and member "a@x.com" is
passed as "user:a@x.com". -/
theorem C9_members_prefixed_in_order (p r s k : String) (es : List String) :
    (processGroupKey okOracle p r s k es).1.filter isGrantCall =
      [RemoteCall.setIamPolicy p r (thisDataSetName s k) (buildUserList es) "roles/viewer"] ∧
    buildUserList es = es.map (fun thisEmail => "user:" ++ thisEmail) ∧
    (buildUserList es).length = es.length ∧
    buildUserList ["a@x.com"] = ["user:a@x.com"] := by
  have hmap : buildUserList es = es.map (fun thisEmail => "user:" ++ thisEmail) := by
    induction es with
    | nil => rfl
    | cons e rest ih => simp [buildUserList, ih]
  refine ⟨?_, hmap, ?_, rfl⟩
  · rw [processGroupKey_ok]; rfl
  · rw [hmap, List.length_map]

/-- Claim C10 (confirmed): the run performs one full provisioning
sequence (create dataset, create store, import, grant) per key of each
consent-group entry's mapping, in iteration order; an entry with k keys
yields k dataset creations, so the total number of dataset-creation
requests is the total number of keys. -/
theorem C10_one_sequence_per_key (py : ParsedYaml) :
    mainRun okOracle py =
      ((py.study.consentGroups.map fun thisConsentGroup =>
        (thisConsentGroup.map fun kv =>
          groupKeyCalls py.project py.region py.study.id kv.1 kv.2).flatten).flatten,
       none) ∧
    ((mainRun okOracle py).1.filter isCreateDataset).length =
      (py.study.consentGroups.map List.length).sum := by
  refine ⟨mainRun_ok py, ?_⟩
  rw [mainRun_ok py]
  exact countCreate_entries py.project py.region py.study.id py.study.consentGroups

/-- Claim C3 (corrected), counterexample to the claim as stated: on the
spec example study, group "groupB" has an empty member set, yet the
access-grant request is issued for it (with an empty member list) — it
is not skipped. -/
theorem C3_counterexample :
    (mainRun okOracle exampleParsed).1.filter isGrantCall =
      [RemoteCall.setIamPolicy "proj1" "us-central1" "dataset--study7--groupA"
         ["user:a@x.com"] "roles/viewer",
       RemoteCall.setIamPolicy "proj1" "us-central1" "dataset--study7--groupB"
         [] "roles/viewer"] := rfl

/-- Claim C3 (corrected), amended: the access-grant request is issued
exactly once per group regardless of whether the member set is empty,
with role "roles/viewer" and the prefixed member list; for an empty
member set the request carries an empty member list. -/
theorem C3_grant_called_unconditionally (p r s k : String) (es : List String) :
    ((processGroupKey okOracle p r s k es).1.filter isGrantCall).length = 1 ∧
    (processGroupKey okOracle p r s k []).1.filter isGrantCall =
      [RemoteCall.setIamPolicy p r (thisDataSetName s k) [] "roles/viewer"] := by
  constructor
  · rw [processGroupKey_ok]; rfl
  · rw [processGroupKey_ok]; rfl

/-- Claim C1 (corrected), counterexample to the claim as stated: a
pre-existing binding of role "roles/owner" for "user:admin@x.com" on the
dataset is not contained in the policy left by the access-grant call for
"user:a@x.com" with role "roles/viewer" — the existing binding is not
left unchanged. -/
theorem C1_counterexample :
    ¬ (Binding.mk "roles/owner" ["user:admin@x.com"] ∈
      (set_dataset_iam_policy
        { bindings := [Binding.mk "roles/owner" ["user:admin@x.com"]], etag := none }
        ["user:a@x.com"] "roles/viewer" none).bindings) := by
  decide

/-- Claim C1 (corrected), amended: the access-grant call builds a policy
holding exactly one binding (the given role with the given member list),
without reading the dataset's existing policy, and submits it to the
remote setIamPolicy operation, which replaces the dataset's policy
wholesale: the resulting policy is independent of the previous one. -/
theorem C1_policy_wholesale_replacement (oldPolicy : Policy) (member : List String)
    (role : String) (etag : Option String) :
    set_dataset_iam_policy oldPolicy member role etag =
      { bindings := [{ role := role, members := member }], etag := etag } := rfl

/-- Claim C2 (corrected), counterexample to the claim as stated: on a
Study whose consent groups hold two groups both named "groupA", the run
does not fail before any remote call — under an all-accepting remote it
issues eight requests (two dataset creations among them) and raises no
error. -/
theorem C2_counterexample :
    (mainRun okOracle dupParsed).2 = none ∧
    ((mainRun okOracle dupParsed).1.filter isCreateDataset).length = 2 ∧
    (mainRun okOracle dupParsed).1.length = 8 :=
  ⟨rfl, rfl, rfl⟩

/-- Claim C2 (corrected), amended: no group-name uniqueness validation
exists; a Study holding two consent groups with the same name is
processed like any other, the full provisioning sequence being issued
for each occurrence of the duplicated name. -/
theorem C2_no_duplicate_validation (p r s name : String) (es1 es2 : List String) :
    mainRun okOracle
      { study := { id := s, consentGroups := [[(name, es1)], [(name, es2)]] },
        project := p, region := r } =
      (groupKeyCalls p r s name es1 ++ groupKeyCalls p r s name es2, none) := by
  rw [mainRun_ok]
  simp

/-- Claim C4 (corrected), counterexample to the claim as stated: when
creating the first group's dataset fails with PermissionDenied, the run
aborts with that error after a single request — the second group is
never attempted, so the run does not complete with all groups attempted
and no outcome is recorded. -/
theorem C4_counterexample :
    (mainRun permissionDeniedOracle exampleParsed).2 = some RemoteError.permissionDenied ∧
    ((mainRun permissionDeniedOracle exampleParsed).1.filter isCreateDataset).length = 1 ∧
    (mainRun permissionDeniedOracle exampleParsed).1 =
      [RemoteCall.createDataset "proj1" "us-central1" "dataset--study7--groupA"] :=
  ⟨rfl, rfl, rfl⟩

/-- Claim C4 (corrected), amended: a remote-call failure in a group does
stop further steps for that group, but it also aborts the entire run:
the error propagates uncaught and no subsequent consent-group entry is
processed, whatever entries remain. -/
theorem C4_group_failure_aborts_run (oracle : Oracle) (p r s : String)
    (entry : List (String × List String)) (rest : List (List (String × List String)))
    (tr : List RemoteCall) (e : RemoteError)
    (h : processGroupKeys oracle p r s entry = (tr, some e)) :
    processConsentGroups oracle p r s (entry :: rest) = (tr, some e) := by
  simp [processConsentGroups, h]

/-- Witness for C4: at the concrete failing study, the run aborts after
one request with PermissionDenied even though a second group remains. -/
theorem C4_group_failure_aborts_run_witness :
    processConsentGroups permissionDeniedOracle "proj1" "us-central1" "study7"
      [[("groupA", ["a@x.com"])], [("groupB", ([] : List String))]] =
      ([RemoteCall.createDataset "proj1" "us-central1" "dataset--study7--groupA"],
       some RemoteError.permissionDenied) :=
  C4_group_failure_aborts_run permissionDeniedOracle "proj1" "us-central1" "study7"
    [("groupA", ["a@x.com"])] [[("groupB", ([] : List String))]]
    [RemoteCall.createDataset "proj1" "us-central1" "dataset--study7--groupA"]
    RemoteError.permissionDenied rfl

/-- Claim C5 (corrected), counterexample to the claim as stated: when
createDataset signals AlreadyExists, the run does not proceed to the
subsequent steps — it aborts after that single request and AlreadyExists
is surfaced as the run's uncaught error. -/
theorem C5_counterexample :
    (mainRun alreadyExistsOracle exampleParsed).2 = some RemoteError.alreadyExists ∧
    (mainRun alreadyExistsOracle exampleParsed).1 =
      [RemoteCall.createDataset "proj1" "us-central1" "dataset--study7--groupA"] :=
  ⟨rfl, rfl⟩

/-- Claim C5 (corrected), amended: AlreadyExists receives no special
handling — like any other error it propagates uncaught from the
dataset-creation request, aborting the group and the run; the store
creation, import and grant steps are never reached. -/
theorem C5_alreadyExists_not_treated_as_success (oracle : Oracle) (p r s k : String)
    (es : List String)
    (h : oracle (RemoteCall.createDataset p r (thisDataSetName s k)) =
      some RemoteError.alreadyExists) :
    processGroupKey oracle p r s k es =
      ([RemoteCall.createDataset p r (thisDataSetName s k)], some RemoteError.alreadyExists) := by
  simp [processGroupKey, h]

/-- Witness for C5: a remote signalling AlreadyExists on every request
aborts the example group after its dataset-creation request. -/
theorem C5_alreadyExists_not_treated_as_success_witness :
    processGroupKey alreadyExistsOracle "proj1" "us-central1" "study7" "groupA" ["a@x.com"] =
      ([RemoteCall.createDataset "proj1" "us-central1" "dataset--study7--groupA"],
       some RemoteError.alreadyExists) :=
  C5_alreadyExists_not_treated_as_success alreadyExistsOracle "proj1" "us-central1" "study7"
    "groupA" ["a@x.com"] rfl

/-- Claim C7 (corrected), counterexample to the claim as stated: name
derivation is not injective on all (studyId, groupName) pairs — the
distinct pairs ("a--b", "c") and ("a", "b--c") derive the same storeId
and the same datasetId, because "--" can occur inside the identifiers
themselves. -/
theorem C7_counterexample :
    thisDataStoreName "a--b" "c" = thisDataStoreName "a" "b--c" ∧
    thisDataSetName "a--b" "c" = thisDataSetName "a" "b--c" ∧
    ¬ (("a--b", "c") = (("a" : String), ("b--c" : String))) :=
  ⟨rfl, rfl, by decide⟩

/-- Claim C7 (corrected), amended: name derivation is deterministic
(recomputing on equal inputs yields equal datasetId, storeId and
importSource), and within a fixed studyId it is injective in the group
name: distinct groups of the same Study never derive colliding
datasetIds or storeIds.  Injectivity on arbitrary (studyId, groupName)
pairs fails when the identifiers contain "--". -/
theorem C7_deterministic_and_injective_within_study (s k1 k2 : String) :
    (∀ s2 k3, s = s2 → k1 = k3 →
      thisDataSetName s k1 = thisDataSetName s2 k3 ∧
      thisDataStoreName s k1 = thisDataStoreName s2 k3 ∧
      uri s k1 = uri s2 k3) ∧
    (thisDataStoreName s k1 = thisDataStoreName s k2 → k1 = k2) ∧
    (thisDataSetName s k1 = thisDataSetName s k2 → k1 = k2) := by
  refine ⟨?_, ?_, ?_⟩
  · rintro s2 k3 rfl rfl
    exact ⟨rfl, rfl, rfl⟩
  · intro h
    simp only [thisDataStoreName] at h
    exact string_append_left_cancel (s ++ "--") k1 k2 h
  · intro h
    simp only [thisDataSetName] at h
    exact string_append_left_cancel ("dataset--" ++ s ++ "--") k1 k2 h

/-- Witness for C7: the injectivity and determinism clauses applied at
the example study's names. -/
theorem C7_deterministic_and_injective_within_study_witness :
    ("groupA" : String) = "groupA" ∧ ("groupB" : String) = "groupB" ∧
    thisDataSetName "study7" "groupA" = thisDataSetName "study7" "groupA" :=
  ⟨(C7_deterministic_and_injective_within_study "study7" "groupA" "groupA").2.1 rfl,
   (C7_deterministic_and_injective_within_study "study7" "groupB" "groupB").2.2 rfl,
   ((C7_deterministic_and_injective_within_study "study7" "groupA" "groupA").1
     "study7" "groupA" rfl rfl).1⟩

/-- Claim C8 (corrected), counterexample to the claim as stated: a
studyId "Study_7!" and group name "Group A" contain characters outside
lowercase alphanumerics and hyphens, yet name derivation does not fail —
the run proceeds with no error, creating a dataset whose id carries the
disallowed characters verbatim. -/
theorem C8_counterexample :
    (mainRun okOracle badParsed).2 = none ∧
    (mainRun okOracle badParsed).1.filterMap datasetIdOf = ["dataset--Study_7!--Group A"] ∧
    (mainRun okOracle badParsed).1.length = 4 :=
  ⟨rfl, rfl, rfl⟩

/-- Claim C8 (corrected), amended: no identifier validation exists —
for every studyId and groupName string whatsoever, name derivation
succeeds, the group is processed without error, and the derived
datasetId embeds both strings verbatim. -/
theorem C8_no_identifier_validation (p r s k : String) (es : List String) :
    (processGroupKey okOracle p r s k es).2 = none ∧
    (processGroupKey okOracle p r s k es).1.filterMap datasetIdOf =
      ["dataset--" ++ s ++ "--" ++ k] := by
  constructor
  · rw [processGroupKey_ok]
  · rw [processGroupKey_ok]
    rfl
